import Mathlib

/-!
Verification of the Salesforce–PayPal payment integration.

The repository ships three Lightning Web Components:
* `paymentForm.js`, holding the classes `PaymentForm` (payment entry form)
  and `PaymentHistory` (transaction table with filters, sort, totals);
* `paymentStatus.js`, holding `PaymentStatus` (status display and refunds).

The Apex back end the README names (`PayPalService`, `PaymentProcessor`,
`PayPalAuthManager`, `PayPalWebhookHandler`) is not part of the repository
files; where a property concerns that back end the corresponding definition
is modelled from the specification and marked as such in its doc comment.

Conventions of the embedding:
* JavaScript numbers that arrive through `parseFloat` of an input string are
  modelled as `Option ℚ`: `none` stands for an empty input string (falsy in
  the source) or a string that does not parse to a number, `some q` for a
  string parsing to the numeric value `q`.  Non-numeric but non-empty
  strings (`parseFloat` giving NaN) are not distinguished from empty ones;
  no property below depends on that corner.
* Optional Salesforce record fields (`Amount__c`, `Status__c`, ...) are
  `Option` types; a JavaScript `undefined` field is `none`, and the
  frequent `value || fallback` idiom is `Option.getD` (an empty string,
  which is also falsy in JavaScript, is likewise modelled as `none`).
* `CreatedDate` is modelled as an integer epoch timestamp; the source
  compares `new Date(value)` objects, which compare as their timestamps.
-/

/-! ## PaymentForm (paymentForm.js, class PaymentForm) -/

/-- One entry of the currency dropdown, as in `PaymentForm.currencyOptions`. -/
structure CurrencyOption where
  label : String
  value : String
deriving DecidableEq

/-- The dropdown entries of `PaymentForm.currencyOptions`
(paymentForm.js lines 20–27). -/
def currencyOptions : List CurrencyOption :=
  [⟨"USD - US Dollar", "USD"⟩,
   ⟨"EUR - Euro", "EUR"⟩,
   ⟨"GBP - British Pound", "GBP"⟩,
   ⟨"CAD - Canadian Dollar", "CAD"⟩,
   ⟨"AUD - Australian Dollar", "AUD"⟩,
   ⟨"JPY - Japanese Yen", "JPY"⟩]

/-- `PaymentForm.validateForm` (paymentForm.js lines 76–87): the form is
valid when the amount field is non-empty, parses to a value strictly above
zero, and the description is non-empty with non-blank content.  The same
condition is `get isFormValid` (lines 185–190).  The selected currency is
not inspected here. -/
def validateForm (amount : Option ℚ) (description : String) : Bool :=
  (match amount with
   | none => false
   | some a => decide (0 < a))
  && (description != "")
  && decide (0 < description.trim.length)

/-! ## PaymentStatus (paymentStatus.js) -/

/-- The fields of the wired payment record that `PaymentStatus` reads. -/
structure PaymentData where
  Status__c : Option String
  Amount__c : Option ℚ
  Currency_Code__c : Option String
deriving DecidableEq

/-- `get canRefund` (paymentStatus.js lines 146–150): the refund action is
offered when a payment is loaded and its status is Completed or
Partially Refunded. -/
def canRefund (paymentData : Option PaymentData) : Bool :=
  match paymentData with
  | none => false
  | some d => d.Status__c == some "Completed" || d.Status__c == some "Partially Refunded"

/-- `get canPartialRefund` (paymentStatus.js lines 152–154): the dedicated
partial-refund action is offered only for status Completed. -/
def canPartialRefund (paymentData : Option PaymentData) : Bool :=
  match paymentData with
  | none => false
  | some d => d.Status__c == some "Completed"

/-- First guard of `processRefund` (paymentStatus.js line 66):
`!this.refundAmount || parseFloat(this.refundAmount) <= 0`. -/
def parsedNonpositive : Option ℚ → Bool
  | none => true
  | some a => decide (a ≤ 0)

/-- Second guard of `processRefund` (paymentStatus.js line 71):
`parseFloat(this.refundAmount) > this.paymentData.Amount__c`; a comparison
against an `undefined` field is false in JavaScript. -/
def exceedsOriginal : Option ℚ → Option ℚ → Bool
  | some a, some m => decide (m < a)
  | _, _ => false

/-- `PaymentStatus.processRefund` (paymentStatus.js lines 65–95), reduced to
whether the entered amount passes both guards so that the refund call to the
server is issued.  The component state holds no cumulative refunded total:
the only amount available to the check is the original `Amount__c` of the
loaded payment. -/
def processRefundAccepts (refundAmount : Option ℚ) (paymentData : PaymentData) : Bool :=
  if parsedNonpositive refundAmount then false
  else if exceedsOriginal refundAmount paymentData.Amount__c then false
  else true

/-- `get maxRefundAmount` (paymentStatus.js lines 183–185):
`this.paymentData ? this.paymentData.Amount__c : 0`. -/
def maxRefundAmount : Option PaymentData → Option ℚ
  | some d => d.Amount__c
  | none => some 0

/-- `get isValidRefundAmount` (paymentStatus.js lines 187–191): non-empty
input parsing to `a` with `0 < a` and `a ≤ maxRefundAmount` (a comparison
against an `undefined` maximum is false in JavaScript). -/
def isValidRefundAmount (refundAmount : Option ℚ) (paymentData : Option PaymentData) : Bool :=
  match refundAmount with
  | none => false
  | some a =>
    decide (0 < a) &&
      (match maxRefundAmount paymentData with
       | some m => decide (a ≤ m)
       | none => false)

/-- Payment record loaded with status Partially Refunded, original amount
100.00, used as a concrete instance below. -/
def pdPartially : PaymentData := ⟨some "Partially Refunded", some 100, some "USD"⟩

/-! ## PaymentHistory (paymentForm.js, class PaymentHistory) -/

/-- The fields of a `Payment_Transaction__c` row that `PaymentHistory`
reads. -/
structure HistPayment where
  Name : Option String
  PayPal_Order_ID__c : Option String
  Payment_Method__c : Option String
  Status__c : Option String
  Amount__c : Option ℚ
  Currency_Code__c : Option String
  CreatedDate : Int
deriving DecidableEq

/-- Two decimal digits with a leading zero, the fractional part produced by
`Number.prototype.toFixed(2)`. -/
def fixedDigits (n : Nat) : String :=
  (if n < 10 then "0" else "") ++ toString n

/-- `total.toFixed(2)` on an exact decimal value: round to a whole number of
cents (ties away from zero on the exact rational, matching `toFixed` on the
exact decimals that 2-decimal amounts produce) and print with two fraction
digits. -/
def toFixed2 (q : ℚ) : String :=
  if q < 0 then
    "-" ++ toString ((⌊-q * 100 + 1/2⌋).toNat / 100) ++ "."
        ++ fixedDigits ((⌊-q * 100 + 1/2⌋).toNat % 100)
  else
    toString ((⌊q * 100 + 1/2⌋).toNat / 100) ++ "."
        ++ fixedDigits ((⌊q * 100 + 1/2⌋).toNat % 100)

/-- `get totalAmount` (paymentForm.js lines 326–337): "USD 0.00" for an
empty filtered list; otherwise the sum of `Amount__c || 0` over the filtered
payments, prefixed by `filteredPayments[0]?.Currency_Code__c || 'USD'` and
formatted with `toFixed(2)`. -/
def totalAmount (filteredPayments : List HistPayment) : String :=
  if filteredPayments.isEmpty then "USD 0.00"
  else
    let total := filteredPayments.foldl (fun sum payment => sum + payment.Amount__c.getD 0) 0
    let currency := (filteredPayments.head?.bind (fun payment => payment.Currency_Code__c)).getD "USD"
    currency ++ " " ++ toFixed2 total

/-- The displayed total as the specification sentence describes it: the sum
of `Amount__c` over the currently filtered payments (missing amounts counted
as 0) formatted to 2 decimals, labelled with the currency code of the first
filtered payment (defaulting to USD), and exactly "USD 0.00" for an empty
list.  Stated in the words of the description, to be compared with
`totalAmount` as translated from the source. -/
def totalAmountClaim (filteredPayments : List HistPayment) : String :=
  match filteredPayments with
  | [] => "USD 0.00"
  | first :: _ =>
    (first.Currency_Code__c.getD "USD") ++ " "
      ++ toFixed2 ((filteredPayments.map (fun payment => payment.Amount__c.getD 0)).sum)

/-- The two values of `this.sortedDirection`. -/
inductive SortDirection
  | asc
  | desc
deriving DecidableEq

/-- Dynamic field access `payment[this.sortedBy]` for the string-valued
columns (the generic branch of the sort comparator). -/
def strField (payment : HistPayment) : String → Option String
  | "Name" => payment.Name
  | "PayPal_Order_ID__c" => payment.PayPal_Order_ID__c
  | "Payment_Method__c" => payment.Payment_Method__c
  | "Status__c" => payment.Status__c
  | _ => none

/-- The comparator of `sortData` (paymentForm.js lines 412–433): values of
the sorted column are compared as dates for `CreatedDate`, as
`parseFloat(value) || 0` for `Amount__c`, and as `value || ''` strings
otherwise; equal values give 0, otherwise `valueA > valueB ? 1 : -1`, and
the result is negated for descending order. -/
def sortCompare (sortedBy : String) (sortedDirection : SortDirection)
    (a b : HistPayment) : Int :=
  let base : Int :=
    if sortedBy = "CreatedDate" then
      (if a.CreatedDate = b.CreatedDate then 0
       else if b.CreatedDate < a.CreatedDate then 1 else -1)
    else if sortedBy = "Amount__c" then
      (if a.Amount__c.getD 0 = b.Amount__c.getD 0 then 0
       else if b.Amount__c.getD 0 < a.Amount__c.getD 0 then 1 else -1)
    else
      (if (strField a sortedBy).getD "" = (strField b sortedBy).getD "" then 0
       else if (strField b sortedBy).getD "" < (strField a sortedBy).getD "" then 1 else -1)
  match sortedDirection with
  | SortDirection.asc => base
  | SortDirection.desc => -base

/-- `sortData` (paymentForm.js lines 409–436): sort the filtered list with
the three-way comparator.  `Array.prototype.sort` is modelled as a merge
sort on the non-strict order induced by the comparator; every comparison
sort returns some permutation ordered by the comparator, which is all the
properties below use. -/
def sortData (cloneData : List HistPayment) (sortedBy : String)
    (sortedDirection : SortDirection) : List HistPayment :=
  cloneData.mergeSort (fun a b => decide (sortCompare sortedBy sortedDirection a b ≤ 0))

/-- The search predicate of `applyFilters` (paymentForm.js lines 391–398):
`Name`, `PayPal_Order_ID__c` or `Payment_Method__c` contains the lower-cased
search term (optional chaining makes a missing field a non-match). -/
def matchesSearch (searchTerm : String) (payment : HistPayment) : Bool :=
  let searchLower := searchTerm.toLower
  ((payment.Name.map (fun v => (v.toLower).containsSubstr searchLower.toSubstring)).getD false)
  || ((payment.PayPal_Order_ID__c.map (fun v => (v.toLower).containsSubstr searchLower.toSubstring)).getD false)
  || ((payment.Payment_Method__c.map (fun v => (v.toLower).containsSubstr searchLower.toSubstring)).getD false)

/-- The first reassignment of `applyFilters` (paymentForm.js lines 390–398):
the search filter runs only when `this.searchTerm` is truthy. -/
def searchFiltered (payments : List HistPayment) (searchTerm : String) : List HistPayment :=
  if searchTerm != "" then payments.filter (matchesSearch searchTerm) else payments

/-- The second reassignment of `applyFilters` (paymentForm.js lines
400–403): the status filter runs when `this.statusFilter` is truthy and not
the value "All", keeping rows with `Status__c === this.statusFilter`. -/
def statusFiltered (filtered : List HistPayment) (statusFilter : String) : List HistPayment :=
  if statusFilter != "" && statusFilter != "All" then
    filtered.filter (fun payment => payment.Status__c == some statusFilter)
  else filtered

/-- `applyFilters` (paymentForm.js lines 387–407): copy the loaded payments,
apply the search filter, apply the status filter, then `sortData`. -/
def applyFilters (payments : List HistPayment) (searchTerm statusFilter sortedBy : String)
    (sortedDirection : SortDirection) : List HistPayment :=
  sortData (statusFiltered (searchFiltered payments searchTerm) statusFilter)
    sortedBy sortedDirection

/-- `clearFilters` (paymentForm.js lines 453–457): reset the search term to
the empty string and the status filter to "All", then re-run
`applyFilters`. -/
def clearFilters (payments : List HistPayment) (sortedBy : String)
    (sortedDirection : SortDirection) : List HistPayment :=
  applyFilters payments "" "All" sortedBy sortedDirection

/-- Two loaded payment rows with statuses Completed and Pending, a concrete
instance for the filter properties. -/
def histSample : List HistPayment :=
  [⟨some "PAY-0001", some "ORDER123", some "PayPal", some "Completed",
      some 100, some "USD", 1704067200000⟩,
   ⟨some "PAY-0002", some "ORDER456", some "PayPal", some "Pending",
      some 50, some "USD", 1704153600000⟩]

/-! ## PaymentOrchestrator, modelled from the specification

The Apex classes `PaymentProcessor` and `PayPalService` that drive the
transaction lifecycle are not among the repository files (only their
Lightning Web Component callers and Jest tests are), so the operations below
are modelled from the specification, section 4.3. -/

/-- The transaction lifecycle states of specification section 4.3. -/
inductive Status
  | created
  | approved
  | completed
  | cancelled
  | failed
  | refunded
  | partiallyRefunded
deriving DecidableEq

/-- The error taxonomy of specification section 7, restricted to the errors
the orchestrator operations raise. -/
inductive OrchError
  | validationError
  | stateConflictError
  | gatewayError
deriving DecidableEq

/-- Modelled from the spec: the Transaction record of specification section
3, restricted to the fields the lifecycle operations touch. -/
structure Transaction where
  status : Status
  amount : ℚ
  capturedAmount : ℚ
  refundedAmount : ℚ
  version : Nat
deriving DecidableEq

/-- Modelled from the spec: `PaymentOrchestrator.createPayment` (the Apex
order-creation path, not in the repository files).  Validates
`1.00 ≤ amount ≤ 10000.00` and membership of the currency in
USD/EUR/GBP/CAD/AUD/JPY before anything else; on success the new transaction
starts in `Created` with nothing captured or refunded. -/
def createPayment (amount : ℚ) (currency : String) : Except OrchError Transaction :=
  if 1 ≤ amount ∧ amount ≤ 10000
      ∧ currency ∈ (["USD", "EUR", "GBP", "CAD", "AUD", "JPY"] : List String) then
    Except.ok ⟨Status.created, amount, 0, 0, 0⟩
  else Except.error OrchError.validationError

/-- Modelled from the spec: `markApproved` transitions `Created → Approved`
only; any other current state fails with `StateConflictError` and leaves the
transaction unchanged. -/
def markApproved (t : Transaction) : Except OrchError Unit × Transaction :=
  if t.status = Status.created then
    (Except.ok (), { t with status := Status.approved, version := t.version + 1 })
  else (Except.error OrchError.stateConflictError, t)

/-- Modelled from the spec: `capturePayment` requires current state
`Approved`; the gateway reply is `some c` (captured amount `c`) on success,
`none` on failure.  On success the captured amount is recorded and the
transaction moves to `Completed`; on gateway failure it moves to `Failed`;
from any state other than `Approved` the call fails with
`StateConflictError` and the transaction is unchanged. -/
def capturePayment (t : Transaction) (gateway : Option ℚ) :
    Except OrchError Unit × Transaction :=
  if t.status = Status.approved then
    match gateway with
    | some c =>
      (Except.ok (), { t with
        status := Status.completed
        capturedAmount := c
        version := t.version + 1 })
    | none =>
      (Except.error OrchError.gatewayError, { t with
        status := Status.failed
        version := t.version + 1 })
  else (Except.error OrchError.stateConflictError, t)

/-- Modelled from the spec: `refundPayment` requires current state
`Completed` or `PartiallyRefunded` and a refund amount with `0 < amount` and
`refundedAmount + amount ≤ capturedAmount`, else `ValidationError`.  On
success the refunded total grows by the amount and the status becomes
`Refunded` exactly when the new total equals the captured amount, else
`PartiallyRefunded`. -/
def refundPayment (t : Transaction) (amount : ℚ) :
    Except OrchError Unit × Transaction :=
  if t.status = Status.completed ∨ t.status = Status.partiallyRefunded then
    if 0 < amount ∧ t.refundedAmount + amount ≤ t.capturedAmount then
      (Except.ok (), { t with
        refundedAmount := t.refundedAmount + amount
        status := (if t.refundedAmount + amount = t.capturedAmount
                   then Status.refunded else Status.partiallyRefunded)
        version := t.version + 1 })
    else (Except.error OrchError.validationError, t)
  else (Except.error OrchError.stateConflictError, t)

/-- Transaction of the worked scenario right after creation. -/
def txCreated : Transaction := ⟨Status.created, 100, 0, 0, 0⟩

/-- Scenario transaction after approval. -/
def txApproved : Transaction := ⟨Status.approved, 100, 0, 0, 1⟩

/-- Scenario transaction after capturing 100.00. -/
def txCompleted : Transaction := ⟨Status.completed, 100, 100, 0, 2⟩

/-- Scenario transaction after a partial refund of 40.00. -/
def txPartial40 : Transaction := ⟨Status.partiallyRefunded, 100, 100, 40, 3⟩

/-- Scenario transaction after the further refund of 60.00. -/
def txRefunded : Transaction := ⟨Status.refunded, 100, 100, 100, 4⟩

/-! ## WebhookProcessor, modelled from the specification

The Apex class `PayPalWebhookHandler` is not among the repository files, so
the event handling below is modelled from specification section 4.4, steps
2 to 5 (signature verification, step 1, takes no part in the properties
below and is not modelled). -/

/-- The outcome recorded for a processed webhook event (specification
section 3, WebhookEvent). -/
inductive Outcome
  | applied
  | duplicate
  | ignoredStale
  | failed
deriving DecidableEq

/-- The subscribed webhook event types (specification sections 4.4 and 6). -/
inductive EventType
  | orderApproved
  | captureCompleted
  | captureDenied
  | captureRefunded
deriving DecidableEq

/-- Modelled from the spec: a received webhook event; `amount` carries the
captured or refunded amount of the payload. -/
structure WebhookEvent where
  eventId : String
  eventType : EventType
  amount : ℚ
deriving DecidableEq

/-- Modelled from the spec: the store state the processor touches — the
event ids already recorded, and the related transaction. -/
structure WPState where
  seen : List String
  txn : Transaction
deriving DecidableEq

/-- The transition edges of the state machine of specification section 4.3:
`Created → Approved → Completed →` refunds, `Created → Cancelled`,
`Created/Approved → Failed`, and `PartiallyRefunded` to itself or to
`Refunded`. -/
def reachableStep : Status → Status → Bool
  | Status.created, Status.approved => true
  | Status.created, Status.cancelled => true
  | Status.created, Status.failed => true
  | Status.approved, Status.completed => true
  | Status.approved, Status.failed => true
  | Status.completed, Status.refunded => true
  | Status.completed, Status.partiallyRefunded => true
  | Status.partiallyRefunded, Status.partiallyRefunded => true
  | Status.partiallyRefunded, Status.refunded => true
  | _, _ => false

/-- Modelled from the spec: step 3 of `WebhookProcessor.handle`, the mapping
from event type to target state (order-approved → Approved,
capture-completed → Completed, capture-denied → Failed, capture-refunded →
Refunded when the event completes the refund, else PartiallyRefunded). -/
def targetOf (e : WebhookEvent) (t : Transaction) : Status :=
  match e.eventType with
  | EventType.orderApproved => Status.approved
  | EventType.captureCompleted => Status.completed
  | EventType.captureDenied => Status.failed
  | EventType.captureRefunded =>
      if t.refundedAmount + e.amount = t.capturedAmount then Status.refunded
      else Status.partiallyRefunded

/-- Modelled from the spec: the transaction update of an applied event —
the target status, the payload amounts folded into the captured or refunded
totals, and a version bump (step 5 of section 4.4). -/
def applyEvent (t : Transaction) (e : WebhookEvent) (target : Status) : Transaction :=
  { t with
    status := target
    capturedAmount :=
      (if e.eventType = EventType.captureCompleted then e.amount else t.capturedAmount)
    refundedAmount :=
      (if e.eventType = EventType.captureRefunded then t.refundedAmount + e.amount
       else t.refundedAmount)
    version := t.version + 1 }

/-- Modelled from the spec: steps 2 to 5 of `WebhookProcessor.handle`.  An
event id already recorded gives outcome `duplicate` and changes nothing; a
mapped transition not reachable from the current state gives `ignoredStale`,
records the event id and leaves the transaction unchanged; otherwise the
transition is applied. -/
def handleEvent (s : WPState) (e : WebhookEvent) : Outcome × WPState :=
  if e.eventId ∈ s.seen then (Outcome.duplicate, s)
  else if reachableStep s.txn.status (targetOf e s.txn) then
    (Outcome.applied, ⟨e.eventId :: s.seen, applyEvent s.txn e (targetOf e s.txn)⟩)
  else
    (Outcome.ignoredStale, ⟨e.eventId :: s.seen, s.txn⟩)

/-- Store state holding one recorded event and an approved transaction, a
concrete instance for the deduplication property. -/
def wsApproved : WPState := ⟨[], ⟨Status.approved, 100, 0, 0, 1⟩⟩

/-- The capture-completed event of the concrete webhook instances. -/
def evCapture : WebhookEvent := ⟨"evt-1", EventType.captureCompleted, 100⟩

/-- Store state whose transaction is already fully refunded, a concrete
instance for the stale-event property. -/
def wsRefunded : WPState := ⟨["evt-1"], ⟨Status.refunded, 100, 100, 100, 4⟩⟩

/-- A capture-refunded event arriving for the already refunded transaction
of `wsRefunded`. -/
def evRefundLate : WebhookEvent := ⟨"evt-2", EventType.captureRefunded, 40⟩

/-! ## The properties -/

/-- Claim C1.  The claim states that `createPayment` accepts a request if
and only if `1.00 ≤ amount ≤ 10000.00` and the currency is one of the six
supported codes, failing with a `ValidationError` otherwise before any
network call.  The client-side validator `PaymentForm.validateForm` — the
only amount validation in the component that then calls `createOrder` — does
not enforce the bounds: it cannot distinguish the below-minimum amount 0.50
or the above-maximum amount 15000 from the valid amount 500 on any
description, and the only amount constraint it does enforce is strict
positivity.  The currency dropdown does carry exactly the six claimed
codes.  The Jest tests of the component (paymentForm.test.js, "validates
minimum payment amount" and "validates maximum payment amount") expect the
bounds to be enforced, so the code contradicts its own tests. -/
theorem validateForm_bounds_not_enforced :
    (∀ d, validateForm (some (1/2)) d = validateForm (some 500) d)
    ∧ (∀ d, validateForm (some 15000) d = validateForm (some 500) d)
    ∧ (∀ a d, validateForm (some a) d = true → 0 < a)
    ∧ currencyOptions.map CurrencyOption.value = ["USD", "EUR", "GBP", "CAD", "AUD", "JPY"] := by
  have h05 : decide ((0:ℚ) < 1/2) = true := decide_eq_true (by norm_num)
  have h500 : decide ((0:ℚ) < 500) = true := decide_eq_true (by norm_num)
  have h15000 : decide ((0:ℚ) < 15000) = true := decide_eq_true (by norm_num)
  refine ⟨fun d => ?_, fun d => ?_, fun a d h => ?_, rfl⟩
  · simp only [validateForm, h05, h500]
  · simp only [validateForm, h15000, h500]
  · simp only [validateForm, Bool.and_eq_true, decide_eq_true_eq] at h
    exact h.1.1

/-- Claim C2, counterexample.  The claim states that a refund request is
rejected whenever the cumulative refunded total would exceed the captured
amount.  Concrete run refuting it: a 100.00 payment is captured in full and
a first refund of 60.00 is accepted; the component keeps no refunded total
and `Amount__c` still reads 100.00, so the refund action is still offered
(status Partially Refunded) and the identical second request of 60.00 passes
`processRefund` and is issued, although 60 + 60 ≤ 100 fails. -/
theorem processRefund_cumulative_counterexample :
    canRefund (some pdPartially) = true
    ∧ processRefundAccepts (some 60) pdPartially = true
    ∧ ¬ ((60 : ℚ) + 60 ≤ 100) := by
  refine ⟨by decide, ?_, by norm_num⟩
  have h1 : parsedNonpositive (some (60:ℚ)) = false := by
    simp [parsedNonpositive]
  have h2 : exceedsOriginal (some (60:ℚ)) pdPartially.Amount__c = false := by
    norm_num [exceedsOriginal, pdPartially]
  simp [processRefundAccepts, h1, h2]

/-- Claim C2, as amended.  `processRefund` issues a refund exactly when the
entered amount parses to a value `a` with `0 < a ≤ Amount__c` — the original
payment amount — and rejects an empty amount; `isValidRefundAmount` decides
the same bound.  The component tracks no cumulative refunded total, so
sequential partial refunds are each validated against the original amount
only. -/
theorem processRefund_accepts_iff (a m : ℚ) (st cur : Option String) :
    (processRefundAccepts (some a) ⟨st, some m, cur⟩ = true ↔ (0 < a ∧ a ≤ m))
    ∧ processRefundAccepts none ⟨st, some m, cur⟩ = false
    ∧ (isValidRefundAmount (some a) (some ⟨st, some m, cur⟩) = true ↔ (0 < a ∧ a ≤ m)) := by
  refine ⟨?_, ?_, ?_⟩
  · simp only [processRefundAccepts, parsedNonpositive, exceedsOriginal]
    constructor
    · intro h
      by_cases hle : a ≤ 0
      · simp [hle] at h
      · by_cases hlt : m < a
        · simp [hle, hlt] at h
        · exact ⟨lt_of_not_le hle, le_of_not_lt hlt⟩
    · rintro ⟨hpos, hub⟩
      simp [not_le.mpr hpos, not_lt.mpr hub]
  · simp [processRefundAccepts, parsedNonpositive]
  · simp only [isValidRefundAmount, maxRefundAmount, Bool.and_eq_true, decide_eq_true_eq]

/-- Claim C3.  A capture attempt on a transaction whose current status is
not Approved fails with `StateConflictError` and leaves the transaction
(status, capturedAmount, version) unchanged, whatever the gateway would
reply; and a capture can succeed only from Approved, in which case the
gateway-reported amount is recorded as `capturedAmount` and the transaction
moves to Completed. -/
theorem capturePayment_requires_approved (t : Transaction) (gateway : Option ℚ) :
    (t.status ≠ Status.approved →
      capturePayment t gateway = (Except.error OrchError.stateConflictError, t))
    ∧ (∀ u t', capturePayment t gateway = (Except.ok u, t') →
        t.status = Status.approved ∧ t'.status = Status.completed
          ∧ gateway = some t'.capturedAmount) := by
  constructor
  · intro h
    simp [capturePayment, h]
  · intro u t' h
    by_cases hst : t.status = Status.approved
    · refine ⟨hst, ?_⟩
      cases gateway with
      | some c =>
        simp only [capturePayment, hst, if_pos] at h
        obtain ⟨-, ht'⟩ := Prod.mk.injEq .. ▸ h
        subst ht'
        exact ⟨rfl, rfl⟩
      | none =>
        simp [capturePayment, hst] at h
    · simp [capturePayment, hst] at h

/-- Claim C4.  A refund action (the full-refund button governed by
`canRefund`, or the dedicated partial-refund button governed by
`canPartialRefund`) is available exactly when the loaded payment has status
Completed or Partially Refunded, and never when no payment is loaded.  From
Partially Refunded in particular, the refund action is offered and the
refund dialog accepts any partial amount `a` with `0 < a` at most the
original amount (`processRefund` checks the amount but not the status), so
further partial refunds are permitted; the dedicated partial-refund button
itself is shown only for Completed, but the refund dialog it and the
full-refund button share takes arbitrary amounts within the bound. -/
theorem refund_available_iff (d : PaymentData) (a m : ℚ)
    (hm : d.Amount__c = some m) (ha : 0 < a) (ham : a ≤ m) :
    ((canRefund (some d) || canPartialRefund (some d)) = true ↔
      (d.Status__c = some "Completed" ∨ d.Status__c = some "Partially Refunded"))
    ∧ (canRefund none || canPartialRefund none) = false
    ∧ (d.Status__c = some "Partially Refunded" →
        canRefund (some d) = true ∧ processRefundAccepts (some a) d = true) := by
  refine ⟨?_, rfl, fun hpr => ⟨?_, ?_⟩⟩
  · simp only [canRefund, canPartialRefund, Bool.or_eq_true, beq_iff_eq]
    tauto
  · simp [canRefund, hpr]
  · have h1 : parsedNonpositive (some a) = false := by
      simp [parsedNonpositive, not_le.mpr ha]
    have h2 : exceedsOriginal (some a) d.Amount__c = false := by
      simp [exceedsOriginal, hm, not_lt.mpr ham]
    simp [processRefundAccepts, h1, h2]

/-- Claim C4, concrete instance: with the Partially Refunded 100.00 payment
loaded, the refund action is available, no action is available without a
loaded payment, and a further partial refund of 40.00 is accepted. -/
theorem refund_available_iff_witness :
    ((canRefund (some pdPartially) || canPartialRefund (some pdPartially)) = true ↔
      (pdPartially.Status__c = some "Completed"
        ∨ pdPartially.Status__c = some "Partially Refunded"))
    ∧ (canRefund none || canPartialRefund none) = false
    ∧ (pdPartially.Status__c = some "Partially Refunded" →
        canRefund (some pdPartially) = true
          ∧ processRefundAccepts (some 40) pdPartially = true) :=
  refund_available_iff pdPartially 40 100 rfl (by norm_num) (by norm_num)

/-- Claim C5.  After every successful refund the resulting status is
Refunded exactly when the updated refunded total equals the captured amount,
and Partially Refunded otherwise; the refunded total grows by exactly the
refunded amount and the captured amount is unchanged. -/
theorem refundPayment_refunded_iff (t t' : Transaction) (a : ℚ)
    (h : refundPayment t a = (Except.ok (), t')) :
    (t'.status = Status.refunded ↔ t'.refundedAmount = t'.capturedAmount)
    ∧ (t'.status = Status.refunded ∨ t'.status = Status.partiallyRefunded)
    ∧ t'.refundedAmount = t.refundedAmount + a
    ∧ t'.capturedAmount = t.capturedAmount := by
  by_cases hst : t.status = Status.completed ∨ t.status = Status.partiallyRefunded
  · by_cases hv : 0 < a ∧ t.refundedAmount + a ≤ t.capturedAmount
    · simp only [refundPayment, hst, if_pos, hv] at h
      obtain ⟨-, ht'⟩ := Prod.mk.injEq .. ▸ h
      subst ht'
      by_cases hr : t.refundedAmount + a = t.capturedAmount
      · simp [hr]
      · simp [hr]
    · simp [refundPayment, hst, hv] at h
  · simp [refundPayment, hst] at h

/-- Claim C5, concrete scenario: create 100.00 USD → Created; approve →
Approved; capture → Completed with capturedAmount 100.00; refund 40.00 →
Partially Refunded with refundedAmount 40.00; refund 60.00 → Refunded.  The
status partition of `refundPayment_refunded_iff` is instantiated at the
40.00 refund. -/
theorem refundPayment_refunded_iff_witness :
    (createPayment 100 "USD" = Except.ok txCreated
     ∧ markApproved txCreated = (Except.ok (), txApproved)
     ∧ capturePayment txApproved (some 100) = (Except.ok (), txCompleted)
     ∧ refundPayment txCompleted 40 = (Except.ok (), txPartial40)
     ∧ refundPayment txPartial40 60 = (Except.ok (), txRefunded))
    ∧ ((txPartial40.status = Status.refunded ↔
          txPartial40.refundedAmount = txPartial40.capturedAmount)
       ∧ (txPartial40.status = Status.refunded
            ∨ txPartial40.status = Status.partiallyRefunded)
       ∧ txPartial40.refundedAmount = txCompleted.refundedAmount + 40
       ∧ txPartial40.capturedAmount = txCompleted.capturedAmount) :=
  ⟨⟨by norm_num [createPayment, txCreated],
    by norm_num [markApproved, txCreated, txApproved],
    by norm_num [capturePayment, txApproved, txCompleted],
    by norm_num [refundPayment, txCompleted, txPartial40],
    by norm_num [refundPayment, txPartial40, txRefunded]⟩,
   refundPayment_refunded_iff txCompleted txPartial40 40
     (by norm_num [refundPayment, txCompleted, txPartial40])⟩

/-- Claim C6.  A webhook event whose id is not yet recorded never yields
outcome duplicate; replaying it immediately afterwards yields outcome
duplicate and leaves the whole store state — recorded ids and transaction —
unchanged; and in general any delivery whose event id is already recorded
returns outcome duplicate without mutating anything.  Together: the same
event id is applied to a transaction at most once, and a replayed delivery
produces exactly one non-duplicate (applied or stale) outcome and one
duplicate outcome. -/
theorem handleEvent_replay_duplicate (s : WPState) (e : WebhookEvent)
    (h : e.eventId ∉ s.seen) :
    (handleEvent s e).1 ≠ Outcome.duplicate
    ∧ handleEvent (handleEvent s e).2 e = (Outcome.duplicate, (handleEvent s e).2)
    ∧ (∀ s', e.eventId ∈ s'.seen → handleEvent s' e = (Outcome.duplicate, s')) := by
  have hmem : e.eventId ∈ (handleEvent s e).2.seen := by
    rw [handleEvent, if_neg h]
    cases hr : reachableStep s.txn.status (targetOf e s.txn) <;>
      simp [hr, List.mem_cons]
  refine ⟨?_, ?_, fun s' hs' => ?_⟩
  · rw [handleEvent, if_neg h]
    cases hr : reachableStep s.txn.status (targetOf e s.txn) <;> simp [hr]
  · rw [handleEvent, if_pos hmem]
  · rw [handleEvent, if_pos hs']

/-- Claim C6, concrete instance: a first capture-completed event for an
approved transaction is applied (not a duplicate), and its replay is
reported duplicate with nothing changed. -/
theorem handleEvent_replay_duplicate_witness :
    (handleEvent wsApproved evCapture).1 ≠ Outcome.duplicate
    ∧ handleEvent (handleEvent wsApproved evCapture).2 evCapture
        = (Outcome.duplicate, (handleEvent wsApproved evCapture).2)
    ∧ (∀ s', evCapture.eventId ∈ s'.seen →
        handleEvent s' evCapture = (Outcome.duplicate, s')) :=
  handleEvent_replay_duplicate wsApproved evCapture (by simp [wsApproved, evCapture])

/-- Claim C7.  A webhook event whose id is new but whose mapped target
transition is not reachable from the related transaction's current state is
recorded with outcome ignored-stale: the handler returns normally (no
failed outcome) and the transaction is untouched. -/
theorem handleEvent_stale_ignored (s : WPState) (e : WebhookEvent)
    (h1 : e.eventId ∉ s.seen)
    (h2 : reachableStep s.txn.status (targetOf e s.txn) = false) :
    handleEvent s e = (Outcome.ignoredStale, ⟨e.eventId :: s.seen, s.txn⟩) := by
  rw [handleEvent, if_neg h1, h2]
  rfl

/-- Claim C7, concrete instance: a capture-refunded event arriving for an
already fully Refunded transaction maps to a transition that is unreachable
from Refunded (a terminal state), so the outcome is ignored-stale, the event
id is recorded, and the transaction is unchanged. -/
theorem handleEvent_stale_ignored_witness :
    handleEvent wsRefunded evRefundLate
      = (Outcome.ignoredStale, ⟨["evt-2", "evt-1"], ⟨Status.refunded, 100, 100, 100, 4⟩⟩) :=
  handleEvent_stale_ignored wsRefunded evRefundLate
    (by decide)
    (by
      have hall : ∀ x, reachableStep Status.refunded x = false := by
        intro x
        cases x <;> rfl
      exact hall _)

/-- Claim C9.  The displayed total of the payment-history component agrees,
on every filtered list, with the described value: the sum of `Amount__c`
over the filtered payments with missing amounts counted as 0, formatted to
two decimals, labelled with the currency code of the first filtered payment
(USD when absent), and exactly "USD 0.00" for an empty list.  Mixed-currency
lists are covered: the sum is taken over plain numbers and the label comes
from the first payment only. -/
theorem totalAmount_eq_claim (filteredPayments : List HistPayment) :
    totalAmount filteredPayments = totalAmountClaim filteredPayments := by
  cases filteredPayments with
  | nil => rfl
  | cons first rest =>
    simp only [totalAmount, totalAmountClaim, List.isEmpty_cons, Bool.false_eq_true,
      if_false, List.head?_cons, Option.bind_some, List.sum_eq_foldl, List.foldl_map,
      Option.some_bind]

/-- Claim C10.  After `applyFilters` runs with a status filter other than
"All" (and non-empty, since an empty filter string is falsy and skips the
status filter), every payment in the displayed list has `Status__c` exactly
equal to the selected value; with filter "All" and an empty search term the
displayed list is a permutation of the loaded payments (the trailing
`sortData` only reorders), so it contains every loaded payment; and
`clearFilters` resets both filters and re-applies, restoring the full list
of loaded payments up to the active sort order. -/
theorem applyFilters_status_and_clear (payments : List HistPayment)
    (searchTerm statusFilter sortedBy : String) (sortedDirection : SortDirection)
    (h1 : statusFilter ≠ "All") (h2 : statusFilter ≠ "") :
    (∀ p ∈ applyFilters payments searchTerm statusFilter sortedBy sortedDirection,
        p.Status__c = some statusFilter)
    ∧ (applyFilters payments "" "All" sortedBy sortedDirection).Perm payments
    ∧ (clearFilters payments sortedBy sortedDirection).Perm payments := by
  have hskip : ∀ l : List HistPayment, statusFiltered (searchFiltered l "") "All" = l := by
    intro l
    rw [searchFiltered, statusFiltered]
    simp
  refine ⟨fun p hp => ?_, ?_, ?_⟩
  · rw [applyFilters, sortData] at hp
    have hp2 := (List.mergeSort_perm _ _).mem_iff.mp hp
    rw [statusFiltered, if_pos (by simp [h1, h2])] at hp2
    exact eq_of_beq (List.mem_filter.mp hp2).2
  · rw [applyFilters, sortData, hskip]
    exact List.mergeSort_perm _ _
  · rw [clearFilters, applyFilters, sortData, hskip]
    exact List.mergeSort_perm _ _

/-- Claim C10, concrete instance: over a loaded list with one Completed and
one Pending payment, filtering by "Completed" keeps only Completed rows,
while the "All"-and-empty-search display and the `clearFilters` display are
permutations of the loaded list. -/
theorem applyFilters_status_and_clear_witness :
    (∀ p ∈ applyFilters histSample "" "Completed" "CreatedDate" SortDirection.desc,
        p.Status__c = some "Completed")
    ∧ (applyFilters histSample "" "All" "CreatedDate" SortDirection.desc).Perm histSample
    ∧ (clearFilters histSample "CreatedDate" SortDirection.desc).Perm histSample :=
  applyFilters_status_and_clear histSample "" "Completed" "CreatedDate"
    SortDirection.desc (by decide) (by decide)
